import Mathlib

/-!
Verification development for the techra fleet-management backend.

The definitions below are shallow embeddings of the TypeScript source:

* tenant mapping module (tenant-mapping, unnamed part_001 / part_000):
  getDbTenantId, isTechvanaSuperAdmin, getTenantIdForUser;
* the Fastify authentication preHandler and the /chat endpoint
  (server module, unnamed part_004): authenticate, searchDocuments,
  chatHandler;
* the admin route handlers over the wagons schema (src/database.ts):
  assignAggregate, recordReading, replaceV1 (first admin variant of
  POST /api/aggregates/replace), replaceV2 (second admin variant);
* the route handlers over the cars schema (unnamed part_003):
  moveAggregate, unassignAggregate, swapAggregates, replaceCars;
* connection/transaction discipline traces for the pooled-connection
  handlers: replaceV1Conn, updateTenantConfigConnV2.

SQL statements are modelled over in-memory lists of rows: a
SELECT ... WHERE id = $1 returning rows[0] becomes List.find?, an
UPDATE ... WHERE id = $1 becomes a List.map that rewrites every row whose
id matches, and an INSERT appends one row.  Each handler is a pure
function from the database state to (response, database state); a
rolled-back transaction returns the input state unchanged.  JavaScript
truthiness of the || operator on strings (empty string is falsy) is made
explicit in jsOrStr.
-/

namespace Techra

/-- JavaScript `v || fallback` on an optional string: both `undefined` and
the empty string select the fallback. -/
def jsOrStr (v : Option String) (fallback : String) : String :=
  match v with
  | some s => if s == "" then fallback else s
  | none => fallback

/-! ### Tenant mapping module (unnamed part_001) -/

structure TenantMapping where
  azureTenantId : String
  dbTenantId : String
  name : String
deriving DecidableEq

/-- Static default mapping table from the source. -/
def DEFAULT_TENANT_MAPPINGS : List TenantMapping :=
  [{ azureTenantId := "71416bf2-04a4-4715-a8d2-6af239168e20"
   , dbTenantId := "default"
   , name := "Öresundståg" }]

/-- Static super-admin allow-list from the source. -/
def TECHVANA_SUPER_ADMINS : List String :=
  ["elias-chahoud@hotmail.com"]

/-- getDbTenantId: look the Azure tenant id up in the mapping table
(module state, here a parameter since it is seeded from the environment),
falling back to "default" when no entry matches. -/
def getDbTenantId (tenantMappings : List TenantMapping) (azureTenantId : String) : String :=
  match tenantMappings.find? (fun m => m.azureTenantId == azureTenantId) with
  | some mapping => mapping.dbTenantId
  | none => "default"

/-- ASCII lower-casing of a string, the observable behaviour of
JavaScript toLowerCase() on the email addresses involved (written over
the character list so that it evaluates inside the kernel). -/
def jsToLower (s : String) : String :=
  String.mk (s.data.map Char.toLower)

/-- JavaScript String.startsWith, written over the character lists so
that it evaluates inside the kernel. -/
def strStartsWith (s p : String) : Bool :=
  s.data.take p.data.length == p.data

/-- JavaScript String.substring(n) (drop the first n characters),
written over the character lists. -/
def strDrop (s : String) (n : Nat) : String :=
  String.mk (s.data.drop n)

/-- isTechvanaSuperAdmin: membership of the lower-cased email in the
static allow-list. -/
def isTechvanaSuperAdmin (email : String) : Bool :=
  TECHVANA_SUPER_ADMINS.contains (jsToLower email)

/-- getTenantIdForUser: super-admins get `requestedTenantId || 'default'`
(JavaScript truthiness: an empty string also falls back); everyone else
is mapped through getDbTenantId. -/
def getTenantIdForUser (tenantMappings : List TenantMapping) (email : String)
    (azureTenantId : String) (requestedTenantId : Option String) : String :=
  if isTechvanaSuperAdmin email then
    match requestedTenantId with
    | some t => if t == "" then "default" else t
    | none => "default"
  else
    getDbTenantId tenantMappings azureTenantId

/-! ### Authentication preHandler (unnamed part_004) -/

/-- Supervisor group id used as the default `groups` claim. -/
def SUPERVISOR_GROUP : String := "d5f7f6e7-380f-468d-9d0e-6a7c30fd3ef9"

/-- config.tenantId default value. -/
def configTenantId : String := "71416bf2-04a4-4715-a8d2-6af239168e20"

structure JwtPayload where
  upn : Option String
  email : Option String
  preferred_username : Option String
  name : Option String
  tid : Option String
  oid : Option String
  groups : Option (List String)
deriving DecidableEq

structure UserInfo where
  email : String
  name : String
  tenantId : String
  objectId : String
  groups : List String
deriving DecidableEq

inductive AuthResult where
  | unauthorized
  | authed (user : UserInfo)
deriving DecidableEq

/-- The fixed development fallback identity installed when decoding the
token payload throws. -/
def devFallbackUser : UserInfo :=
  { email := "dev@techra.app"
  , name := "Development User"
  , tenantId := configTenantId
  , objectId := "dev-123"
  , groups := [SUPERVISOR_GROUP] }

/-- Field extraction from a successfully parsed payload; every `||`
fallback chain of the source is rendered with jsOrStr, while the
`groups` claim uses plain undefined-check (an empty array is truthy). -/
def userFromPayload (p : JwtPayload) : UserInfo :=
  { email := jsOrStr p.upn (jsOrStr p.email (jsOrStr p.preferred_username "test@techra.app"))
  , name := jsOrStr p.name "Test User"
  , tenantId := jsOrStr p.tid configTenantId
  , objectId := jsOrStr p.oid "test-123"
  , groups := p.groups.getD [SUPERVISOR_GROUP] }

/-- authenticate: reject with 401 unless the Authorization header starts
with "Bearer "; then base64/JSON-decode the middle token segment
(`decodeToken` stands for that external decode, Except.error for a
throw), installing the development fallback identity on any throw. -/
def authenticate (authHeader : Option String)
    (decodeToken : String → Except Unit JwtPayload) : AuthResult :=
  match authHeader with
  | none => AuthResult.unauthorized
  | some h =>
    if strStartsWith h "Bearer " then
      match decodeToken (strDrop h 7) with
      | Except.ok p => AuthResult.authed (userFromPayload p)
      | Except.error _ => AuthResult.authed devFallbackUser
    else AuthResult.unauthorized

/-- Does the request carry a header with the Bearer prefix? -/
def hasBearer (authHeader : Option String) : Bool :=
  match authHeader with
  | some h => strStartsWith h "Bearer "
  | none => false

/-! ### Chat endpoint with RAG (unnamed part_004) -/

structure SearchResult where
  content : String
  source : String
  score : Nat
deriving DecidableEq

/-- searchDocuments: returns [] when the search client is unconfigured
(`searchClient = none`) and [] when the search call throws
(`searchCall = Except.error`); otherwise the retrieved results (already
defaulted field-wise as in the source loop). -/
def searchDocuments (searchClient : Option Unit)
    (searchCall : Except Unit (List SearchResult)) : List SearchResult :=
  match searchClient with
  | none => []
  | some _ =>
    match searchCall with
    | Except.ok results => results
    | Except.error _ => []

structure ChatMsg where
  role : String
  content : String
deriving DecidableEq

structure ChatResponse where
  user : String
  reply : String
  sources : List String
  conversation_history : List ChatMsg
deriving DecidableEq

/-- Deduplicated source names, in first-appearance order, exactly as the
`if (!sources.includes(result.source)) sources.push(...)` loop builds. -/
def collectSources (results : List SearchResult) : List String :=
  results.foldl (fun acc r => if acc.contains r.source then acc else acc ++ [r.source]) []

/-- Prompt context preamble built from the search results. -/
def buildContext (results : List SearchResult) : String :=
  if results.length > 0 then
    "Relevant information from documentation:\n\n" ++
      String.join (results.enum.map
        (fun p => "[" ++ toString (p.1 + 1) ++ "] " ++ p.2.content ++ "\n\n"))
  else ""

/-- The development fallback reply used when Azure OpenAI is not
configured. -/
def mockReply (message : String) (nResults : Nat) : String :=
  "Mock response for: \"" ++ message ++ "\"\n\n" ++
    "Found " ++ toString nResults ++ " relevant documents.\n" ++
    "This is a development response. Configure Azure OpenAI for real responses."

/-- Reply generation: with a configured OpenAI client the external
completion call either yields `choices[0]?.message?.content` (an Option,
with the `|| 'No response generated'` fallback) or throws, which the
handler surfaces as a 500; without a client the mock reply is returned. -/
def generateReply (openAIClient : Option Unit)
    (completionCall : Except Unit (Option String))
    (message : String) (nResults : Nat) : Except Unit String :=
  match openAIClient with
  | some _ =>
    match completionCall with
    | Except.ok content => Except.ok (jsOrStr content "No response generated")
    | Except.error e => Except.error e
  | none => Except.ok (mockReply message nResults)

/-- POST /chat handler body (success value = the JSON response;
Except.error = the catch branch replying 500). -/
def chatHandler (openAIClient : Option Unit)
    (completionCall : Except Unit (Option String))
    (searchClient : Option Unit) (searchCall : Except Unit (List SearchResult))
    (message : String) (conversationHistory : List ChatMsg) :
    Except Unit ChatResponse :=
  let searchResults := searchDocuments searchClient searchCall
  let sources := collectSources searchResults
  match generateReply openAIClient completionCall message searchResults.length with
  | Except.error e => Except.error e
  | Except.ok aiResponse =>
    Except.ok
      { user := message
      , reply := aiResponse
      , sources := sources
      , conversation_history :=
          conversationHistory ++
            [{ role := "user", content := message },
             { role := "assistant", content := aiResponse }] }

/-! ### Relational state for the admin routes over the wagons schema
(src/database.ts).  Ids are the route/request string values; timestamps
and serial row ids are not modelled.  JSONB snapshot values written by
the handlers are modelled structurally. -/

structure Aggregate where
  id : String
  aggregate_number : String
  type : String
  status : String
  current_wagon_id : Option String
  is_spare : Bool
  temperature_setpoint : Option Int
  current_temperature : Option Int
  pressure_value : Option Int
deriving DecidableEq

/-- JSONB value of shape LBRACE wagon_id: v RBRACE as written by the
assign handler into aggregate_logs.old_value / new_value. -/
structure WagonRef where
  wagon_id : Option String
deriving DecidableEq

structure AggregateLogRow where
  aggregate_id : String
  wagon_id : Option String
  event_type : String
  description : String
  old_value : Option WagonRef
  new_value : Option WagonRef
deriving DecidableEq

structure ReplacementRow where
  tenant_id : String
  old_aggregate_id : String
  new_aggregate_id : String
  wagon_id : Option String
  reason : String
  replaced_by : Option String
deriving DecidableEq

/-- JSONB value of shape LBRACE aggregate_id, wagon_id RBRACE as written
by the first replace variant into audit_logs.old_value / new_value. -/
structure SnapshotRef where
  aggregate_id : String
  wagon_id : Option String
deriving DecidableEq

structure AuditRow where
  tenant_id : String
  user_email : Option String
  user_name : Option String
  action : String
  entity_type : String
  entity_id : String
  old_value : Option SnapshotRef
  new_value : Option SnapshotRef
  description : String
deriving DecidableEq

structure SensorReadingRow where
  aggregate_id : String
  temperature : Option Int
  pressure : Option Int
  humidity : Option Int
  power_consumption : Option Int
  error_codes : Option String
deriving DecidableEq

structure DBState where
  aggregates : List Aggregate
  aggregate_logs : List AggregateLogRow
  aggregate_replacements : List ReplacementRow
  audit_logs : List AuditRow
  sensor_readings : List SensorReadingRow
deriving DecidableEq

/-- Route handler outcome: 200 JSON body, 404, or 500. -/
inductive ApiResult (α : Type) where
  | ok (value : α)
  | notFound (error : String)
  | serverError (error : String)
deriving DecidableEq

/-- SELECT ... FROM aggregates WHERE id = $1, taking rows[0]. -/
def findAggregate (db : DBState) (id : String) : Option Aggregate :=
  db.aggregates.find? (fun a => a.id == id)

/-- UPDATE aggregates SET ... WHERE id = $1: rewrite every row whose id
matches. -/
def updateWhereId (id : String) (f : Aggregate → Aggregate)
    (l : List Aggregate) : List Aggregate :=
  l.map (fun a => if a.id == id then f a else a)

/-- POST /api/aggregates/:id/assign (src/database.ts): inside one
transaction, read the old wagon id, UPDATE current_wagon_id (404 and
rollback when no row matched), and INSERT one 'moved' aggregate_logs
row capturing the old and the new wagon id.  Neither is_spare nor
status is touched. -/
def assignAggregate (id : String) (wagon_id : String) (db : DBState) :
    ApiResult Aggregate × DBState :=
  match findAggregate db id with
  | none => (ApiResult.notFound "Aggregate not found", db)
  | some oldRow =>
    let newAggregates :=
      updateWhereId id (fun a => { a with current_wagon_id := some wagon_id }) db.aggregates
    let logRow : AggregateLogRow :=
      { aggregate_id := id
      , wagon_id := some wagon_id
      , event_type := "moved"
      , description := "Aggregate reassigned to different wagon"
      , old_value := some { wagon_id := oldRow.current_wagon_id }
      , new_value := some { wagon_id := some wagon_id } }
    (ApiResult.ok { oldRow with current_wagon_id := some wagon_id },
      { db with aggregates := newAggregates
              , aggregate_logs := db.aggregate_logs ++ [logRow] })

/-- POST /api/aggregates/:id/readings (src/database.ts): two separate
pool.query calls with no surrounding transaction, each auto-committed.
insertSucceeds / updateSucceeds are the statement-level failure oracle:
when the UPDATE fails after the INSERT, the inserted sensor row
persists and the handler answers 500. -/
def recordReading (id : String) (temperature pressure humidity power_consumption : Option Int)
    (error_codes : Option String) (insertSucceeds updateSucceeds : Bool)
    (db : DBState) : ApiResult SensorReadingRow × DBState :=
  if insertSucceeds then
    let row : SensorReadingRow :=
      { aggregate_id := id
      , temperature := temperature
      , pressure := pressure
      , humidity := humidity
      , power_consumption := power_consumption
      , error_codes := error_codes }
    let db1 := { db with sensor_readings := db.sensor_readings ++ [row] }
    if updateSucceeds then
      let aggs :=
        updateWhereId id
          (fun a => { a with current_temperature := temperature
                           , pressure_value := pressure }) db1.aggregates
      (ApiResult.ok row, { db1 with aggregates := aggs })
    else (ApiResult.serverError "Failed to record reading", db1)
  else (ApiResult.serverError "Failed to record reading", db)

/-- POST /api/aggregates/replace, first admin variant (src/database.ts,
the file with the explicit rows.length check): on a missing old
aggregate the transaction is rolled back and 404 returned; otherwise
the old aggregate is detached/spare/maintenance, the new one attached
to the vacated wagon as operational, and exactly one
aggregate_replacements row plus one audit_logs row (with structured
old/new snapshots) are inserted, all committed together. -/
def replaceV1 (tenantId : String) (userEmail userName : Option String)
    (old_aggregate_id new_aggregate_id : String) (reason : String)
    (db : DBState) : ApiResult Unit × DBState :=
  match findAggregate db old_aggregate_id with
  | none => (ApiResult.notFound "Old aggregate not found", db)
  | some oldAgg =>
    let wagonId := oldAgg.current_wagon_id
    let aggs1 :=
      updateWhereId old_aggregate_id
        (fun a => { a with current_wagon_id := none, is_spare := true
                         , status := "maintenance" }) db.aggregates
    let aggs2 :=
      updateWhereId new_aggregate_id
        (fun a => { a with current_wagon_id := wagonId, is_spare := false
                         , status := "operational" }) aggs1
    let repl : ReplacementRow :=
      { tenant_id := tenantId
      , old_aggregate_id := old_aggregate_id
      , new_aggregate_id := new_aggregate_id
      , wagon_id := wagonId
      , reason := reason
      , replaced_by := userEmail }
    let audit : AuditRow :=
      { tenant_id := tenantId
      , user_email := userEmail
      , user_name := userName
      , action := "REPLACE"
      , entity_type := "aggregate"
      , entity_id := old_aggregate_id
      , old_value := some { aggregate_id := old_aggregate_id, wagon_id := wagonId }
      , new_value := some { aggregate_id := new_aggregate_id, wagon_id := wagonId }
      , description := "Replaced aggregate " ++ oldAgg.aggregate_number ++
          " with spare. Reason: " ++ reason }
    (ApiResult.ok (),
      { db with aggregates := aggs2
              , aggregate_replacements := db.aggregate_replacements ++ [repl]
              , audit_logs := db.audit_logs ++ [audit] })

/-- POST /api/aggregates/replace, second admin variant (src/database.ts,
the file that throws new Error('Old aggregate not found')): the throw
is caught by the generic catch, which rolls back and replies 500, not
404.  Its audit row carries the new aggregate id as entity_id and no
old/new snapshots. -/
def replaceV2 (tenantId : String) (userEmail userName : Option String)
    (old_aggregate_id new_aggregate_id : String) (reason : String)
    (db : DBState) : ApiResult Unit × DBState :=
  match findAggregate db old_aggregate_id with
  | none => (ApiResult.serverError "Failed to replace aggregate", db)
  | some oldAgg =>
    let wagonId := oldAgg.current_wagon_id
    let aggs1 :=
      updateWhereId old_aggregate_id
        (fun a => { a with is_spare := true, current_wagon_id := none
                         , status := "maintenance" }) db.aggregates
    let aggs2 :=
      updateWhereId new_aggregate_id
        (fun a => { a with is_spare := false, current_wagon_id := wagonId
                         , status := "operational" }) aggs1
    let repl : ReplacementRow :=
      { tenant_id := tenantId
      , old_aggregate_id := old_aggregate_id
      , new_aggregate_id := new_aggregate_id
      , wagon_id := wagonId
      , reason := reason
      , replaced_by := userEmail }
    let audit : AuditRow :=
      { tenant_id := tenantId
      , user_email := userEmail
      , user_name := userName
      , action := "REPLACE"
      , entity_type := "aggregate"
      , entity_id := new_aggregate_id
      , old_value := none
      , new_value := none
      , description := "Replaced aggregate " ++ old_aggregate_id ++ " with " ++
          new_aggregate_id ++ ": " ++ reason }
    (ApiResult.ok (),
      { db with aggregates := aggs2
              , aggregate_replacements := db.aggregate_replacements ++ [repl]
              , audit_logs := db.audit_logs ++ [audit] })

/-! ### Route handlers over the cars schema (unnamed part_003).  The
aggregates table is the same physical table (it also has the is_spare
column added by the phase 7/8 schema), but these handlers only ever
read and write current_car_id / status / updated_at. -/

structure CarAggregate where
  id : String
  aggregate_number : String
  type : String
  status : String
  current_car_id : Option String
  is_spare : Bool
  updated_at : Nat
deriving DecidableEq

structure CarsDB where
  aggregates : List CarAggregate
  aggregate_replacements : List ReplacementRow
  audit_logs : List AuditRow
deriving DecidableEq

/-- SELECT * FROM aggregates WHERE id = $1, taking rows[0]. -/
def findCarAggregate (db : CarsDB) (id : String) : Option CarAggregate :=
  db.aggregates.find? (fun a => a.id == id)

/-- UPDATE aggregates SET ... WHERE id = $1 over the cars schema. -/
def updateCarWhereId (id : String) (f : CarAggregate → CarAggregate)
    (l : List CarAggregate) : List CarAggregate :=
  l.map (fun a => if a.id == id then f a else a)

/-- POST /api/aggregates/:id/move/:carId: single UPDATE setting
current_car_id, 404 when no row matched. -/
def moveAggregate (id carId : String) (now : Nat) (db : CarsDB) :
    ApiResult CarAggregate × CarsDB :=
  match findCarAggregate db id with
  | none => (ApiResult.notFound "Aggregate not found", db)
  | some row =>
    let aggs :=
      updateCarWhereId id
        (fun a => { a with current_car_id := some carId, updated_at := now })
        db.aggregates
    (ApiResult.ok { row with current_car_id := some carId, updated_at := now },
      { db with aggregates := aggs })

/-- POST /api/aggregates/:id/unassign: single UPDATE clearing
current_car_id and setting status 'reserve', 404 when no row matched. -/
def unassignAggregate (id : String) (now : Nat) (db : CarsDB) :
    ApiResult CarAggregate × CarsDB :=
  match findCarAggregate db id with
  | none => (ApiResult.notFound "Aggregate not found", db)
  | some row =>
    let aggs :=
      updateCarWhereId id
        (fun a => { a with current_car_id := none, status := "reserve", updated_at := now })
        db.aggregates
    (ApiResult.ok { row with current_car_id := none, status := "reserve", updated_at := now },
      { db with aggregates := aggs })

/-- POST /api/aggregates/:id/swap (unnamed part_003): inside one
transaction, read both aggregates (404 and rollback when either is
missing), then write each aggregate's car reference to the other's
previous value. -/
def swapAggregates (id target_aggregate_id : String) (now : Nat) (db : CarsDB) :
    ApiResult Unit × CarsDB :=
  match findCarAggregate db id, findCarAggregate db target_aggregate_id with
  | some agg1, some agg2 =>
    let car1 := agg1.current_car_id
    let car2 := agg2.current_car_id
    let aggs1 :=
      updateCarWhereId id
        (fun a => { a with current_car_id := car2, updated_at := now }) db.aggregates
    let aggs2 :=
      updateCarWhereId target_aggregate_id
        (fun a => { a with current_car_id := car1, updated_at := now }) aggs1
    (ApiResult.ok (), { db with aggregates := aggs2 })
  | _, _ => (ApiResult.notFound "One or both aggregates not found", db)

/-- POST /api/aggregates/replace, cars variant (unnamed part_003): no
existence check at all, the wagon comes from the request body (car_id),
the two UPDATEs are fired unconditionally (a missing id updates zero
rows), no aggregate_replacements and no audit_logs row is written, and
the handler always reports success. -/
def replaceCars (old_aggregate_id new_aggregate_id : String) (car_id : String)
    (now : Nat) (db : CarsDB) : ApiResult Unit × CarsDB :=
  let aggs1 :=
    updateCarWhereId old_aggregate_id
      (fun a => { a with current_car_id := none, status := "reserve", updated_at := now })
      db.aggregates
  let aggs2 :=
    updateCarWhereId new_aggregate_id
      (fun a => { a with current_car_id := some car_id, status := "operational", updated_at := now })
      aggs1
  (ApiResult.ok (), { db with aggregates := aggs2 })

/-! ### Connection/transaction discipline traces (claim C6).  Each
pooled handler is abstracted to the control flow around its
client.query calls.  failAt is the statement-level failure oracle: the
index (in program order, BEGIN = 0) of the statement that throws, if
any; ROLLBACK and client.release never fail. -/

structure ConnOutcome where
  released : Bool
  rolledBack : Bool
  committed : Bool
  httpStatus : Nat
deriving DecidableEq

/-- Does the oracle fail statement k? -/
def failsAt (failAt : Option Nat) (k : Nat) : Bool :=
  failAt == some k

/-- Connection discipline of the first POST /api/aggregates/replace
variant: statements BEGIN(0), SELECT(1), UPDATE old(2), UPDATE new(3),
INSERT replacement(4), INSERT audit(5), COMMIT(6); the catch always
rolls back and the finally block always releases. -/
def replaceV1Conn (oldExists : Bool) (failAt : Option Nat) : ConnOutcome :=
  if failsAt failAt 0 then { released := true, rolledBack := true, committed := false, httpStatus := 500 }
  else if failsAt failAt 1 then { released := true, rolledBack := true, committed := false, httpStatus := 500 }
  else if !oldExists then { released := true, rolledBack := true, committed := false, httpStatus := 404 }
  else if failsAt failAt 2 then { released := true, rolledBack := true, committed := false, httpStatus := 500 }
  else if failsAt failAt 3 then { released := true, rolledBack := true, committed := false, httpStatus := 500 }
  else if failsAt failAt 4 then { released := true, rolledBack := true, committed := false, httpStatus := 500 }
  else if failsAt failAt 5 then { released := true, rolledBack := true, committed := false, httpStatus := 500 }
  else if failsAt failAt 6 then { released := true, rolledBack := true, committed := false, httpStatus := 500 }
  else { released := true, rolledBack := false, committed := true, httpStatus := 200 }

/-- Connection discipline of the second PUT
/api/tenants/:tenant_id/configuration variant (src/database.ts, the
handler whose client.release() sits on the success path inside try and
whose catch has no ROLLBACK): statements BEGIN(0), UPDATE tenants(1),
INSERT ... ON CONFLICT(2), COMMIT(3).  Any throw leaves the connection
unreleased and the transaction open. -/
def updateTenantConfigConnV2 (failAt : Option Nat) : ConnOutcome :=
  if failsAt failAt 0 then { released := false, rolledBack := false, committed := false, httpStatus := 500 }
  else if failsAt failAt 1 then { released := false, rolledBack := false, committed := false, httpStatus := 500 }
  else if failsAt failAt 2 then { released := false, rolledBack := false, committed := false, httpStatus := 500 }
  else if failsAt failAt 3 then { released := false, rolledBack := false, committed := false, httpStatus := 500 }
  else { released := true, rolledBack := false, committed := true, httpStatus := 200 }

/-- The attached-xor-spare invariant on one aggregate row: a spare row
carries no wagon (equivalently, an attached row is not spare). -/
def aggInvariant (a : Aggregate) : Prop :=
  a.is_spare = true → a.current_wagon_id = none

instance (a : Aggregate) : Decidable (aggInvariant a) := by
  unfold aggInvariant; infer_instance

/-! ### Helper lemmas -/

/-- A pointwise relation between a list and its image under a map. -/
theorem forall₂_map_self {α : Type} {R : α → α → Prop} {g : α → α}
    (h : ∀ a, R a (g a)) : ∀ l : List α, List.Forall₂ R l (l.map g)
  | [] => List.Forall₂.nil
  | x :: xs => List.Forall₂.cons (h x) (forall₂_map_self h xs)

/-- find? by id commutes with an id-preserving row rewrite. -/
theorem find?_map_of_key {α : Type} (key : α → String) (g : α → α)
    (hg : ∀ x, key (g x) = key x) (l : List α) (k : String) :
    (l.map g).find? (fun x => key x == k) = (l.find? (fun x => key x == k)).map g := by
  induction l with
  | nil => rfl
  | cons x xs ih =>
    simp only [List.map_cons, List.find?, hg]
    cases hxk : (key x == k)
    · simpa [hxk] using ih
    · simp [hxk]

/-- With pairwise-distinct keys, the row found by a member's key is that
member itself. -/
theorem find?_of_mem_nodup {α : Type} (key : α → String) (l : List α)
    (hn : (l.map key).Nodup) (x : α) (hx : x ∈ l) :
    l.find? (fun y => key y == key x) = some x := by
  induction l with
  | nil => cases hx
  | cons y ys ih =>
    rw [List.map_cons, List.nodup_cons] at hn
    rcases List.mem_cons.mp hx with rfl | hx2
    · exact List.find?_cons_of_pos _ (by simp)
    · have hne : key y ≠ key x := by
        intro hcontra
        exact hn.1 (hcontra ▸ List.mem_map_of_mem key hx2)
      rw [List.find?_cons_of_neg _ (by simpa using hne), ih hn.2 hx2]

/-! ### Claim theorems -/

/-- C4 (amended): tenant resolution.  For an external tenant id with no
mapping entry and a non-super-admin email the resolver returns
"default" (and, being a total function, never throws); a super-admin
with a non-empty requestedTenantId gets exactly that id back regardless
of the mapping table; a super-admin without a requestedTenantId gets
"default".  (The original claim fails only for the JS-falsy empty
string, see the counterexample.) -/
theorem C4_tenant_resolution :
    (∀ (tenantMappings : List TenantMapping) (email azureTenantId : String)
        (requested : Option String),
        isTechvanaSuperAdmin email = false →
        tenantMappings.find? (fun m => m.azureTenantId == azureTenantId) = none →
        getTenantIdForUser tenantMappings email azureTenantId requested = "default") ∧
    (∀ (tenantMappings : List TenantMapping) (email azureTenantId t : String),
        isTechvanaSuperAdmin email = true → t ≠ "" →
        getTenantIdForUser tenantMappings email azureTenantId (some t) = t) ∧
    (∀ (tenantMappings : List TenantMapping) (email azureTenantId : String),
        isTechvanaSuperAdmin email = true →
        getTenantIdForUser tenantMappings email azureTenantId none = "default") := by
  refine ⟨?_, ?_, ?_⟩
  · intro ms email ext req hsa hfind
    simp [getTenantIdForUser, hsa, getDbTenantId, hfind]
  · intro ms email ext t hsa ht
    simp [getTenantIdForUser, hsa, ht]
  · intro ms email ext hsa
    simp [getTenantIdForUser, hsa]

/-- C4 witness: a concrete super-admin resolution with a non-empty
requested tenant id. -/
theorem C4_tenant_resolution_witness :
    isTechvanaSuperAdmin "elias-chahoud@hotmail.com" = true ∧
    ("snalltaget" : String) ≠ "" ∧
    getTenantIdForUser DEFAULT_TENANT_MAPPINGS "elias-chahoud@hotmail.com"
      "unknown-ext" (some "snalltaget") = "snalltaget" :=
  ⟨by decide, by decide,
    C4_tenant_resolution.2.1 DEFAULT_TENANT_MAPPINGS "elias-chahoud@hotmail.com"
      "unknown-ext" "snalltaget" (by decide) (by decide)⟩

/-- C4 counterexample: a super-admin passing the explicit empty string
as requestedTenantId receives "default", not the requested value, since
the source computes requestedTenantId || 'default' and the empty string
is JS-falsy. -/
theorem C4_counterexample :
    isTechvanaSuperAdmin "elias-chahoud@hotmail.com" = true ∧
    getTenantIdForUser DEFAULT_TENANT_MAPPINGS "elias-chahoud@hotmail.com"
      "71416bf2-04a4-4715-a8d2-6af239168e20" (some "") = "default" ∧
    getTenantIdForUser DEFAULT_TENANT_MAPPINGS "elias-chahoud@hotmail.com"
      "71416bf2-04a4-4715-a8d2-6af239168e20" (some "") ≠ "" := by
  refine ⟨by decide, by decide, by decide⟩

/-- C6: connection discipline.  The replace transaction releases its
pooled connection on every path (any failing statement, and the 404
path), but the second PUT tenant-configuration handler exits its catch
path with the connection unreleased and the transaction not rolled
back: the claimed always-release discipline is violated there. -/
theorem C6_connection_discipline :
    (∀ (oldExists : Bool) (failAt : Option Nat),
        (replaceV1Conn oldExists failAt).released = true) ∧
    (updateTenantConfigConnV2 (some 2)).released = false ∧
    (updateTenantConfigConnV2 (some 2)).rolledBack = false ∧
    (updateTenantConfigConnV2 (some 2)).httpStatus = 500 ∧
    (updateTenantConfigConnV2 none).released = true := by
  refine ⟨?_, rfl, rfl, rfl, rfl⟩
  intro oldExists failAt
  unfold replaceV1Conn
  repeat' split
  all_goals rfl

/-- C8: graceful degradation of the chat path.  An unconfigured search
client and a throwing search call both yield the empty retrieval
context, and an unconfigured completion client makes the handler return
the labelled mock reply successfully instead of an error response. -/
theorem C8_chat_degradation :
    (∀ searchCall, searchDocuments none searchCall = []) ∧
    (∀ searchClient, searchDocuments searchClient (Except.error ()) = []) ∧
    (∀ (completionCall : Except Unit (Option String)) (searchClient : Option Unit)
        (searchCall : Except Unit (List SearchResult)) (message : String)
        (history : List ChatMsg),
        ∃ r, chatHandler none completionCall searchClient searchCall message history =
            Except.ok r ∧
          r.reply = mockReply message (searchDocuments searchClient searchCall).length) := by
  refine ⟨fun _ => rfl, ?_, ?_⟩
  · intro sc
    cases sc <;> rfl
  · intro cc scl sc m h
    exact ⟨_, rfl, rfl⟩

/-- C9: the authentication middleware replies 401 exactly when the
Authorization header is absent or lacks the Bearer prefix, and any
prefixed token whose payload fails to decode is authenticated as the
fixed development fallback identity. -/
theorem C9_auth_middleware :
    (∀ (authHeader : Option String) (decodeToken : String → Except Unit JwtPayload),
        (authenticate authHeader decodeToken = AuthResult.unauthorized ↔
          hasBearer authHeader = false)) ∧
    (∀ (s : String) (decodeToken : String → Except Unit JwtPayload),
        hasBearer (some s) = true →
        decodeToken (strDrop s 7) = Except.error () →
        authenticate (some s) decodeToken = AuthResult.authed devFallbackUser) := by
  constructor
  · intro h d
    cases h with
    | none => simp [authenticate, hasBearer]
    | some s =>
      simp only [authenticate, hasBearer]
      by_cases hs : strStartsWith s "Bearer " = true
      · simp only [hs, if_true]
        cases d (strDrop s 7) <;> simp
      · simp [hs]
  · intro s d hb hd
    simp only [hasBearer] at hb
    simp [authenticate, hb, hd]

/-- C9 witness: a malformed token with the Bearer prefix is accepted
with the development fallback identity. -/
theorem C9_auth_middleware_witness :
    hasBearer (some "Bearer not-a-jwt") = true ∧
    authenticate (some "Bearer not-a-jwt") (fun _ => Except.error ()) =
      AuthResult.authed devFallbackUser :=
  ⟨by decide, C9_auth_middleware.2 "Bearer not-a-jwt" (fun _ => Except.error ()) (by decide) rfl⟩

/-- C10: every successful chat response extends the input conversation
history by exactly the user message followed by the generated reply, so
its length is the input length plus two and the input history is a
prefix of it. -/
theorem C10_chat_history (openAIClient : Option Unit)
    (completionCall : Except Unit (Option String)) (searchClient : Option Unit)
    (searchCall : Except Unit (List SearchResult)) (message : String)
    (history : List ChatMsg) (r : ChatResponse)
    (h : chatHandler openAIClient completionCall searchClient searchCall message history =
      Except.ok r) :
    r.conversation_history =
        history ++ [{ role := "user", content := message },
                    { role := "assistant", content := r.reply }] ∧
    r.conversation_history.length = history.length + 2 ∧
    r.conversation_history.take history.length = history := by
  simp only [chatHandler] at h
  cases hg : generateReply openAIClient completionCall message
      (searchDocuments searchClient searchCall).length with
  | error e =>
    rw [hg] at h
    cases h
  | ok ai =>
    rw [hg] at h
    simp only [Except.ok.injEq] at h
    subst h
    refine ⟨rfl, by simp, ?_⟩
    simp [List.take_left]

/-- Example chat response produced with no configured collaborators. -/
def chatExampleResponse : ChatResponse :=
  { user := "hi"
  , reply := mockReply "hi" 0
  , sources := []
  , conversation_history := [{ role := "user", content := "hi" },
                             { role := "assistant", content := mockReply "hi" 0 }] }

/-- C10 witness: the history law at a concrete request with empty input
history. -/
theorem C10_chat_history_witness :
    chatExampleResponse.conversation_history =
        [] ++ [{ role := "user", content := "hi" },
               { role := "assistant", content := chatExampleResponse.reply }] ∧
    chatExampleResponse.conversation_history.length = List.length ([] : List ChatMsg) + 2 ∧
    chatExampleResponse.conversation_history.take (List.length ([] : List ChatMsg)) = [] :=
  C10_chat_history none (Except.ok none) none (Except.ok []) "hi" [] chatExampleResponse rfl

/-- C5 (amended): RecordReading runs its INSERT and its UPDATE as two
separately auto-committed pool statements, not one transaction: when
both succeed the sensor row is appended and the matching aggregate's
live values updated, but when the UPDATE fails after the INSERT the
appended history row persists while all aggregates keep their stale
live values and the handler answers 500. -/
theorem C5_record_reading :
    (∀ (id : String) (t p hu pw : Option Int) (ec : Option String) (db : DBState),
        (recordReading id t p hu pw ec true true db).1 =
            ApiResult.ok { aggregate_id := id, temperature := t, pressure := p,
                           humidity := hu, power_consumption := pw, error_codes := ec } ∧
        (recordReading id t p hu pw ec true true db).2.sensor_readings =
            db.sensor_readings ++
              [{ aggregate_id := id, temperature := t, pressure := p,
                 humidity := hu, power_consumption := pw, error_codes := ec }] ∧
        List.Forall₂ (fun a b =>
            b.id = a.id ∧
            (a.id = id → b.current_temperature = t ∧ b.pressure_value = p) ∧
            (a.id ≠ id → b = a))
          db.aggregates (recordReading id t p hu pw ec true true db).2.aggregates) ∧
    (∀ (id : String) (t p hu pw : Option Int) (ec : Option String) (db : DBState),
        (recordReading id t p hu pw ec true false db).1 =
            ApiResult.serverError "Failed to record reading" ∧
        (recordReading id t p hu pw ec true false db).2.sensor_readings =
            db.sensor_readings ++
              [{ aggregate_id := id, temperature := t, pressure := p,
                 humidity := hu, power_consumption := pw, error_codes := ec }] ∧
        (recordReading id t p hu pw ec true false db).2.aggregates = db.aggregates) := by
  constructor
  · intro id t p hu pw ec db
    refine ⟨rfl, rfl, ?_⟩
    refine forall₂_map_self ?_ db.aggregates
    intro a
    by_cases ha : a.id = id
    · simp [ha]
    · simp [ha]
  · intro id t p hu pw ec db
    exact ⟨rfl, rfl, rfl⟩

/-- Concrete database with one attached aggregate whose live temperature
is 20, used to exhibit the torn RecordReading post-state. -/
def dbC5 : DBState :=
  { aggregates := [{ id := "A1", aggregate_number := "AGG-1", type := "Hytt"
                   , status := "operational", current_wagon_id := some "W1"
                   , is_spare := false, temperature_setpoint := some 22
                   , current_temperature := some 20, pressure_value := some 2 }]
  , aggregate_logs := []
  , aggregate_replacements := []
  , audit_logs := []
  , sensor_readings := [] }

/-- C5 counterexample: a reachable post-state in which the new sensor
history row exists while the aggregate still carries its old live
values, because the UPDATE failed after the auto-committed INSERT. -/
theorem C5_counterexample :
    dbC5.sensor_readings = [] ∧
    (recordReading "A1" (some 25) (some 3) none none none true false dbC5).1 =
        ApiResult.serverError "Failed to record reading" ∧
    (recordReading "A1" (some 25) (some 3) none none none true false dbC5).2.sensor_readings =
        [{ aggregate_id := "A1", temperature := some 25, pressure := some 3,
           humidity := none, power_consumption := none, error_codes := none }] ∧
    (recordReading "A1" (some 25) (some 3) none none none true false dbC5).2.aggregates =
        dbC5.aggregates :=
  ⟨rfl, rfl, rfl, rfl⟩

/-- C7 (amended): Assign on an existing aggregate sets the current
wagon reference and writes exactly one aggregate_logs entry capturing
the old and the new wagon id in the same transaction, leaving every
aggregate's spare flag and status unchanged and touching no other
table; on a missing id it answers 404 and writes nothing.  (The claimed
clearing of the spare flag and status change to operational do not
happen, see the counterexample.) -/
theorem C7_assign :
    (∀ (id wagon_id : String) (db : DBState) (oldRow : Aggregate),
        findAggregate db id = some oldRow →
        (assignAggregate id wagon_id db).1 =
            ApiResult.ok { oldRow with current_wagon_id := some wagon_id } ∧
        (assignAggregate id wagon_id db).2.aggregate_logs =
            db.aggregate_logs ++
              [{ aggregate_id := id, wagon_id := some wagon_id, event_type := "moved"
               , description := "Aggregate reassigned to different wagon"
               , old_value := some { wagon_id := oldRow.current_wagon_id }
               , new_value := some { wagon_id := some wagon_id } }] ∧
        List.Forall₂ (fun a b =>
            b.id = a.id ∧ b.is_spare = a.is_spare ∧ b.status = a.status ∧
            (a.id = id → b.current_wagon_id = some wagon_id) ∧
            (a.id ≠ id → b = a))
          db.aggregates (assignAggregate id wagon_id db).2.aggregates ∧
        (assignAggregate id wagon_id db).2.aggregate_replacements =
            db.aggregate_replacements ∧
        (assignAggregate id wagon_id db).2.audit_logs = db.audit_logs ∧
        (assignAggregate id wagon_id db).2.sensor_readings = db.sensor_readings) ∧
    (∀ (id wagon_id : String) (db : DBState),
        findAggregate db id = none →
        assignAggregate id wagon_id db = (ApiResult.notFound "Aggregate not found", db)) := by
  constructor
  · intro id wagon_id db oldRow h
    simp only [assignAggregate, h]
    refine ⟨trivial, trivial, ?_, trivial, trivial, trivial⟩
    refine forall₂_map_self ?_ db.aggregates
    intro a
    by_cases ha : a.id = id
    · simp [updateWhereId, ha]
    · simp [updateWhereId, ha]
  · intro id wagon_id db h
    simp only [assignAggregate, h]

/-- Aggregate row attached to wagon W9, used for the C7 witness. -/
def aggC7att : Aggregate :=
  { id := "5", aggregate_number := "AGG-5", type := "Salong", status := "operational"
  , current_wagon_id := some "W9", is_spare := false, temperature_setpoint := some 22
  , current_temperature := some 21, pressure_value := some 2 }

/-- Single-row database for the C7 witness. -/
def dbC7w : DBState :=
  { aggregates := [aggC7att], aggregate_logs := [], aggregate_replacements := []
  , audit_logs := [], sensor_readings := [] }

/-- C7 witness: a concrete assign call on an existing aggregate. -/
theorem C7_assign_witness :
    findAggregate dbC7w "5" = some aggC7att ∧
    (assignAggregate "5" "W2" dbC7w).1 =
      ApiResult.ok { aggC7att with current_wagon_id := some "W2" } :=
  ⟨by decide, (C7_assign.1 "5" "W2" dbC7w aggC7att (by decide)).1⟩

/-- Spare, detached aggregate row used for the C7 counterexample. -/
def aggC7spare : Aggregate :=
  { id := "7", aggregate_number := "AGG-7", type := "Hytt", status := "reserve"
  , current_wagon_id := none, is_spare := true, temperature_setpoint := some 22
  , current_temperature := none, pressure_value := none }

/-- Single-row database for the C7 counterexample. -/
def dbC7 : DBState :=
  { aggregates := [aggC7spare], aggregate_logs := [], aggregate_replacements := []
  , audit_logs := [], sensor_readings := [] }

/-- C7 counterexample: assigning a spare aggregate to a wagon leaves
is_spare true and the status at "reserve", though the claim requires
the spare flag cleared and status operational. -/
theorem C7_counterexample :
    (assignAggregate "7" "W1" dbC7).2.aggregates =
        [{ aggC7spare with current_wagon_id := some "W1" }] ∧
    ({ aggC7spare with current_wagon_id := some "W1" } : Aggregate).is_spare = true ∧
    ({ aggC7spare with current_wagon_id := some "W1" } : Aggregate).status = "reserve" := by
  refine ⟨by decide, rfl, rfl⟩

/-- C2 (amended): both admin variants of the replace transaction
preserve the attached-xor-spare invariant across the whole aggregates
table; the claim fails for Assign (and the cars-schema move/swap),
which rewrite only the wagon reference and never touch is_spare, see
the counterexample. -/
theorem C2_invariant_preservation :
    (∀ (tenantId : String) (ue un : Option String) (O N reason : String) (db : DBState),
        (∀ a ∈ db.aggregates, aggInvariant a) →
        ∀ a ∈ (replaceV1 tenantId ue un O N reason db).2.aggregates, aggInvariant a) ∧
    (∀ (tenantId : String) (ue un : Option String) (O N reason : String) (db : DBState),
        (∀ a ∈ db.aggregates, aggInvariant a) →
        ∀ a ∈ (replaceV2 tenantId ue un O N reason db).2.aggregates, aggInvariant a) := by
  constructor
  · intro tid ue un O N reason db hinv a ha
    cases hfind : findAggregate db O with
    | none =>
      simp only [replaceV1, hfind] at ha
      exact hinv a ha
    | some o =>
      simp only [replaceV1, hfind, updateWhereId] at ha
      rcases List.mem_map.mp ha with ⟨b1, hb1, rfl⟩
      rcases List.mem_map.mp hb1 with ⟨b, hb, rfl⟩
      by_cases hbO : b.id = O
      · by_cases hbN : b.id = N
        · have hON2 : O = N := hbO.symm.trans hbN
          subst hON2
          simp [hbO, aggInvariant]
        · have hON2 : ¬ O = N := fun hc => hbN (hbO.trans hc)
          simp [hbO, hON2, aggInvariant]
      · by_cases hbN : b.id = N
        · have hNO : ¬ N = O := fun hc => hbO (hbN.trans hc)
          simp [hbO, hbN, hNO, aggInvariant]
        · simpa [hbO, hbN, aggInvariant] using hinv b hb
  · intro tid ue un O N reason db hinv a ha
    cases hfind : findAggregate db O with
    | none =>
      simp only [replaceV2, hfind] at ha
      exact hinv a ha
    | some o =>
      simp only [replaceV2, hfind, updateWhereId] at ha
      rcases List.mem_map.mp ha with ⟨b1, hb1, rfl⟩
      rcases List.mem_map.mp hb1 with ⟨b, hb, rfl⟩
      by_cases hbO : b.id = O
      · by_cases hbN : b.id = N
        · have hON2 : O = N := hbO.symm.trans hbN
          subst hON2
          simp [hbO, aggInvariant]
        · have hON2 : ¬ O = N := fun hc => hbN (hbO.trans hc)
          simp [hbO, hON2, aggInvariant]
      · by_cases hbN : b.id = N
        · have hNO : ¬ N = O := fun hc => hbO (hbN.trans hc)
          simp [hbO, hbN, hNO, aggInvariant]
        · simpa [hbO, hbN, aggInvariant] using hinv b hb

/-- Spare, detached aggregate row used for the C2 theorems. -/
def aggC2spare : Aggregate :=
  { id := "9", aggregate_number := "AGG-9", type := "Hytt", status := "reserve"
  , current_wagon_id := none, is_spare := true, temperature_setpoint := some 22
  , current_temperature := none, pressure_value := none }

/-- Attached aggregate row used for the C2 witness. -/
def aggC2att : Aggregate :=
  { id := "3", aggregate_number := "AGG-3", type := "Hytt", status := "operational"
  , current_wagon_id := some "W4", is_spare := false, temperature_setpoint := some 22
  , current_temperature := some 20, pressure_value := some 2 }

/-- Two-row database satisfying the invariant, for the C2 witness. -/
def dbC2w : DBState :=
  { aggregates := [aggC2att, aggC2spare], aggregate_logs := []
  , aggregate_replacements := [], audit_logs := [], sensor_readings := [] }

/-- C2 witness: a concrete replace call preserving the invariant. -/
theorem C2_invariant_preservation_witness :
    (∀ a ∈ dbC2w.aggregates, aggInvariant a) ∧
    (∀ a ∈ (replaceV1 "default" (some "t@x.se") (some "T") "3" "9" "fault" dbC2w).2.aggregates,
        aggInvariant a) :=
  ⟨by decide,
    C2_invariant_preservation.1 "default" (some "t@x.se") (some "T") "3" "9" "fault" dbC2w
      (by decide)⟩

/-- Single-row database for the C2 counterexample. -/
def dbC2 : DBState :=
  { aggregates := [aggC2spare], aggregate_logs := [], aggregate_replacements := []
  , audit_logs := [], sensor_readings := [] }

/-- C2 counterexample: Assign on a spare aggregate produces a row that
is attached and still flagged spare, so the invariant does not survive
every lifecycle operation. -/
theorem C2_counterexample :
    (∀ a ∈ dbC2.aggregates, aggInvariant a) ∧
    (assignAggregate "9" "W1" dbC2).2.aggregates =
        [{ aggC2spare with current_wagon_id := some "W1" }] ∧
    ¬ aggInvariant { aggC2spare with current_wagon_id := some "W1" } := by
  refine ⟨by decide, by decide, by decide⟩

/-- The row rewrite performed by one UPDATE of the swap transaction:
set current_car_id and updated_at on the rows whose id matches. -/
def jsSetCar (i : String) (c : Option String) (n : Nat) (x : CarAggregate) : CarAggregate :=
  if x.id == i then { x with current_car_id := c, updated_at := n } else x

/-- jsSetCar never changes the id column. -/
theorem jsSetCar_id (i : String) (c : Option String) (n : Nat) (x : CarAggregate) :
    (jsSetCar i c n x).id = x.id := by
  unfold jsSetCar
  by_cases h : (x.id == i) = true <;> simp [h]

/-- find? by id over the cars table commutes with an id-preserving row
rewrite. -/
theorem findCar_map (g : CarAggregate → CarAggregate) (hg : ∀ x, (g x).id = x.id)
    (l : List CarAggregate) (k : String) :
    (l.map g).find? (fun x => x.id == k) = (l.find? (fun x => x.id == k)).map g :=
  find?_map_of_key (fun x => x.id) g hg l k

/-- With primary-key-distinct ids, the row found by a member's id is
that member. -/
theorem findCar_of_mem_nodup (l : List CarAggregate)
    (hn : (l.map (fun x => x.id)).Nodup) (x : CarAggregate) (hx : x ∈ l) :
    l.find? (fun y => y.id == x.id) = some x :=
  find?_of_mem_nodup (fun x => x.id) l hn x hx

/-- C1 (amended): Replace behaves as claimed only in its first admin
variant: with the old aggregate O attached to W (and O distinct from
the new aggregate N) it detaches O as spare/maintenance, attaches N to
W as non-spare/operational, and appends exactly one
aggregate_replacements row and one audit_logs row referencing O, N and
W; with O missing it rolls back and answers 404 with no rows written.
The second variant answers 500 (not 404) on a missing O, and the cars
variant writes no replacement or audit rows at all. -/
theorem C1_replace :
    (∀ (tenantId : String) (ue un : Option String) (O N reason : String)
        (db : DBState) (o : Aggregate) (W : String),
        findAggregate db O = some o →
        o.current_wagon_id = some W →
        O ≠ N →
        (replaceV1 tenantId ue un O N reason db).1 = ApiResult.ok () ∧
        (∀ a ∈ (replaceV1 tenantId ue un O N reason db).2.aggregates, a.id = O →
            a.current_wagon_id = none ∧ a.is_spare = true ∧ a.status = "maintenance") ∧
        (∀ a ∈ (replaceV1 tenantId ue un O N reason db).2.aggregates, a.id = N →
            a.current_wagon_id = some W ∧ a.is_spare = false ∧ a.status = "operational") ∧
        (replaceV1 tenantId ue un O N reason db).2.aggregate_replacements =
            db.aggregate_replacements ++
              [{ tenant_id := tenantId, old_aggregate_id := O, new_aggregate_id := N
               , wagon_id := some W, reason := reason, replaced_by := ue }] ∧
        (replaceV1 tenantId ue un O N reason db).2.audit_logs =
            db.audit_logs ++
              [{ tenant_id := tenantId, user_email := ue, user_name := un
               , action := "REPLACE", entity_type := "aggregate", entity_id := O
               , old_value := some { aggregate_id := O, wagon_id := some W }
               , new_value := some { aggregate_id := N, wagon_id := some W }
               , description := "Replaced aggregate " ++ o.aggregate_number ++
                   " with spare. Reason: " ++ reason }]) ∧
    (∀ (tenantId : String) (ue un : Option String) (O N reason : String) (db : DBState),
        findAggregate db O = none →
        replaceV1 tenantId ue un O N reason db =
          (ApiResult.notFound "Old aggregate not found", db)) ∧
    (∀ (tenantId : String) (ue un : Option String) (O N reason : String) (db : DBState),
        findAggregate db O = none →
        replaceV2 tenantId ue un O N reason db =
          (ApiResult.serverError "Failed to replace aggregate", db)) ∧
    (∀ (O N car_id : String) (now : Nat) (db : CarsDB),
        (replaceCars O N car_id now db).1 = ApiResult.ok () ∧
        (replaceCars O N car_id now db).2.aggregate_replacements =
            db.aggregate_replacements ∧
        (replaceCars O N car_id now db).2.audit_logs = db.audit_logs) := by
  refine ⟨?_, ?_, ?_, ?_⟩
  · intro tenantId ue un O N reason db o W hO hW hON
    simp only [replaceV1, hO]
    refine ⟨trivial, ?_, ?_, by simp [hW], by simp [hW]⟩
    · intro a ha hidO
      simp only [updateWhereId] at ha
      rcases List.mem_map.mp ha with ⟨b1, hb1, rfl⟩
      rcases List.mem_map.mp hb1 with ⟨b, hb, rfl⟩
      by_cases hbO : b.id = O
      · simp [hbO, hON]
      · exfalso
        by_cases hbN : b.id = N
        · have hNO : ¬ N = O := fun hc => hON hc.symm
          simp [hbN, hNO] at hidO
        · simp [hbO, hbN] at hidO
    · intro a ha hidN
      simp only [updateWhereId] at ha
      rcases List.mem_map.mp ha with ⟨b1, hb1, rfl⟩
      rcases List.mem_map.mp hb1 with ⟨b, hb, rfl⟩
      by_cases hbO : b.id = O
      · exfalso
        simp [hbO, hON] at hidN
      · by_cases hbN : b.id = N
        · have hNO : ¬ N = O := fun hc => hON hc.symm
          simp [hbO, hbN, hNO, hW]
        · exfalso
          simp [hbO, hbN] at hidN
  · intro tenantId ue un O N reason db h
    simp only [replaceV1, h]
  · intro tenantId ue un O N reason db h
    simp only [replaceV2, h]
  · intro O N car_id now db
    exact ⟨rfl, rfl, rfl⟩

/-- Aggregate 10 attached to wagon 7, for the C1 witness. -/
def aggC1old : Aggregate :=
  { id := "10", aggregate_number := "AGG-10", type := "Hytt", status := "maintenance"
  , current_wagon_id := some "7", is_spare := false, temperature_setpoint := some 22
  , current_temperature := some 19, pressure_value := some 2 }

/-- Spare aggregate 20, for the C1 witness. -/
def aggC1new : Aggregate :=
  { id := "20", aggregate_number := "AGG-20", type := "Hytt", status := "reserve"
  , current_wagon_id := none, is_spare := true, temperature_setpoint := some 22
  , current_temperature := none, pressure_value := none }

/-- Two-row database for the C1 witness. -/
def dbC1 : DBState :=
  { aggregates := [aggC1old, aggC1new], aggregate_logs := []
  , aggregate_replacements := [], audit_logs := [], sensor_readings := [] }

/-- C1 witness: a concrete successful replace in the first variant. -/
theorem C1_replace_witness :
    findAggregate dbC1 "10" = some aggC1old ∧
    aggC1old.current_wagon_id = some "7" ∧
    ("10" : String) ≠ "20" ∧
    (replaceV1 "default" (some "tech@x.se") (some "Tech") "10" "20" "fault" dbC1).1 =
      ApiResult.ok () :=
  ⟨by decide, rfl, by decide,
    (C1_replace.1 "default" (some "tech@x.se") (some "Tech") "10" "20" "fault" dbC1
      aggC1old "7" (by decide) rfl (by decide)).1⟩

/-- Empty database for the C1 counterexample. -/
def dbC1empty : DBState :=
  { aggregates := [], aggregate_logs := [], aggregate_replacements := []
  , audit_logs := [], sensor_readings := [] }

/-- C1 counterexample: the second admin replace variant, called with an
old aggregate id that does not exist, rolls back but answers with the
serverError (HTTP 500) constructor, not the notFound (HTTP 404) one the
claim requires. -/
theorem C1_counterexample :
    findAggregate dbC1empty "10" = none ∧
    (replaceV2 "default" none none "10" "20" "fault" dbC1empty).1 =
        ApiResult.serverError "Failed to replace aggregate" ∧
    (replaceV2 "default" none none "10" "20" "fault" dbC1empty).2 = dbC1empty :=
  ⟨rfl, rfl, rfl⟩

/-- Mapping a list is determined by the function's values on members. -/
theorem map_eq_of_eq_on {α β : Type} (f g : α → β) :
    ∀ l : List α, (∀ x ∈ l, f x = g x) → l.map f = l.map g
  | [], _ => rfl
  | x :: xs, h => by
    rw [List.map_cons, List.map_cons, h x (List.mem_cons_self x xs),
      map_eq_of_eq_on f g xs fun y hy => h y (List.mem_cons_of_mem x hy)]

/-- C3: Swap with both aggregates present puts the first aggregate on
the second one's car and vice versa, and running the same swap twice
restores every row's car assignment; with either aggregate missing it
rolls back and answers 404 with the state unchanged. -/
theorem C3_swap :
    (∀ (A B : String) (now : Nat) (db : CarsDB) (a b : CarAggregate),
        (db.aggregates.map (fun x => x.id)).Nodup →
        findCarAggregate db A = some a →
        findCarAggregate db B = some b →
        (swapAggregates A B now db).1 = ApiResult.ok () ∧
        (∃ a2, findCarAggregate (swapAggregates A B now db).2 A = some a2 ∧
            a2.current_car_id = b.current_car_id) ∧
        (∃ b2, findCarAggregate (swapAggregates A B now db).2 B = some b2 ∧
            b2.current_car_id = a.current_car_id) ∧
        (∀ now2 : Nat,
            (swapAggregates A B now2 (swapAggregates A B now db).2).2.aggregates.map
                (fun x => (x.id, x.current_car_id)) =
              db.aggregates.map (fun x => (x.id, x.current_car_id)))) ∧
    (∀ (A B : String) (now : Nat) (db : CarsDB),
        (findCarAggregate db A = none ∨ findCarAggregate db B = none) →
        swapAggregates A B now db =
          (ApiResult.notFound "One or both aggregates not found", db)) := by
  constructor
  · intro A B now db a b hnd ha hb
    have ha' : db.aggregates.find? (fun x => x.id == A) = some a := ha
    have hb' : db.aggregates.find? (fun x => x.id == B) = some b := hb
    have haid : a.id = A := by simpa using List.find?_some ha'
    have hbid : b.id = B := by simpa using List.find?_some hb'
    have hswGen : ∀ (n : Nat) (d : CarsDB) (x y : CarAggregate),
        findCarAggregate d A = some x → findCarAggregate d B = some y →
        swapAggregates A B n d =
          (ApiResult.ok (),
            { d with aggregates :=
                ((d.aggregates.map (jsSetCar A y.current_car_id n)).map
                  (jsSetCar B x.current_car_id n)) }) := by
      intro n d x y hx hy
      simp only [swapAggregates, hx, hy, updateCarWhereId]
      rfl
    have hsw := hswGen now db a b ha hb
    have hfind2 : ∀ k : String,
        (swapAggregates A B now db).2.aggregates.find? (fun x => x.id == k) =
          ((db.aggregates.find? (fun x => x.id == k)).map
              (jsSetCar A b.current_car_id now)).map (jsSetCar B a.current_car_id now) := by
      intro k
      simp only [hsw]
      rw [findCar_map (jsSetCar B a.current_car_id now)
            (jsSetCar_id B a.current_car_id now)
            (db.aggregates.map (jsSetCar A b.current_car_id now)) k,
          findCar_map (jsSetCar A b.current_car_id now)
            (jsSetCar_id A b.current_car_id now) db.aggregates k]
    have ha2 : findCarAggregate (swapAggregates A B now db).2 A =
        some (jsSetCar B a.current_car_id now (jsSetCar A b.current_car_id now a)) := by
      show (swapAggregates A B now db).2.aggregates.find? (fun x => x.id == A) = _
      rw [hfind2 A, ha']
      rfl
    have hb2 : findCarAggregate (swapAggregates A B now db).2 B =
        some (jsSetCar B a.current_car_id now (jsSetCar A b.current_car_id now b)) := by
      show (swapAggregates A B now db).2.aggregates.find? (fun x => x.id == B) = _
      rw [hfind2 B, hb']
      rfl
    have hvA : (jsSetCar B a.current_car_id now
        (jsSetCar A b.current_car_id now a)).current_car_id = b.current_car_id := by
      by_cases hAB : A = B
      · subst hAB
        have hab : a = b := Option.some.inj (ha'.symm.trans hb')
        subst hab
        simp [jsSetCar, haid]
      · simp [jsSetCar, haid, hAB]
    have hvB : (jsSetCar B a.current_car_id now
        (jsSetCar A b.current_car_id now b)).current_car_id = a.current_car_id := by
      by_cases hAB : A = B
      · subst hAB
        have hab : a = b := Option.some.inj (ha'.symm.trans hb')
        subst hab
        simp [jsSetCar, haid]
      · have hBA : ¬ B = A := fun hc => hAB hc.symm
        simp [jsSetCar, hbid, hBA]
    refine ⟨by simp [hsw], ⟨_, ha2, hvA⟩, ⟨_, hb2, hvB⟩, ?_⟩
    intro now2
    have hsw2 := hswGen now2 (swapAggregates A B now db).2 _ _ ha2 hb2
    rw [hvA, hvB] at hsw2
    simp only [hsw2]
    simp only [hsw]
    simp only [List.map_map]
    refine map_eq_of_eq_on _ _ db.aggregates ?_
    intro x hx
    simp only [Function.comp]
    by_cases hxA : x.id = A
    · have hxa : x = a := by
        have hfx := findCar_of_mem_nodup db.aggregates hnd x hx
        rw [hxA] at hfx
        exact (Option.some.inj (ha'.symm.trans hfx)).symm
      subst hxa
      by_cases hAB : A = B
      · subst hAB
        have hab : x = b := Option.some.inj (ha'.symm.trans hb')
        subst hab
        simp [jsSetCar, haid]
      · simp [jsSetCar, haid, hAB]
    · by_cases hxB : x.id = B
      · have hxb : x = b := by
          have hfx := findCar_of_mem_nodup db.aggregates hnd x hx
          rw [hxB] at hfx
          exact (Option.some.inj (hb'.symm.trans hfx)).symm
        subst hxb
        have hBA : ¬ B = A := fun hc => hxA (hxB.trans hc)
        simp [jsSetCar, hbid, hBA, hxA]
      · simp [jsSetCar, hxA, hxB]
  · intro A B now db h
    rcases h with h | h
    · cases hB : findCarAggregate db B <;> simp [swapAggregates, h, hB]
    · cases hA : findCarAggregate db A <;> simp [swapAggregates, h, hA]

/-- Aggregate on car C1, for the C3 witness. -/
def carAggA : CarAggregate :=
  { id := "A", aggregate_number := "AGG-A", type := "Hytt", status := "operational"
  , current_car_id := some "C1", is_spare := false, updated_at := 0 }

/-- Aggregate on car C2, for the C3 witness. -/
def carAggB : CarAggregate :=
  { id := "B", aggregate_number := "AGG-B", type := "Salong", status := "operational"
  , current_car_id := some "C2", is_spare := false, updated_at := 0 }

/-- Two-row cars database for the C3 witness. -/
def dbC3 : CarsDB :=
  { aggregates := [carAggA, carAggB], aggregate_replacements := [], audit_logs := [] }

/-- C3 witness: a concrete swap of two existing aggregates. -/
theorem C3_swap_witness :
    (dbC3.aggregates.map (fun x => x.id)).Nodup ∧
    findCarAggregate dbC3 "A" = some carAggA ∧
    findCarAggregate dbC3 "B" = some carAggB ∧
    (swapAggregates "A" "B" 5 dbC3).1 = ApiResult.ok () :=
  ⟨by decide, by decide, by decide,
    (C3_swap.1 "A" "B" 5 dbC3 carAggA carAggB (by decide) (by decide) (by decide)).1⟩

end Techra
